import Mathlib

/-!
Shallow embedding of the OBJ viewer core of `src/components/obj_viewer.py`:

* `OBJModel` with its `load` method (the mesh loader);
* `Viewer`, the state of an `OBJViewer` widget, with `viewerLoadObj`
  (`OBJViewer.load_obj`), `applyEvent` (mouse press / move / wheel handlers)
  and the triangle-emission part of `paintGL` (`renderFace`, `renderFrame`);
* `MultiView`, the state of `MultiViewOBJViewer`, with `multiViewLoadObj`
  and per-slot event dispatch.

Modelling conventions: Python floats are modelled as exact rationals,
Python strings as lists of characters (`PyStr`), a raised exception as
`none` / a failure component of the result.  OpenGL calls are modelled by
their effect on the emitted primitive stream: `glNormal3fv` sets the
current normal, `glVertex3fv` appends a vertex carrying the current
normal; matrix calls (`glScalef`, `glRotatef`, `glTranslatef`) cannot
raise and do not affect which primitives are emitted, so they are not
part of the stream model.
-/

/-- Python strings modelled as lists of characters. -/
abbrev PyStr := List Char

/-- Python `str.split()` with no argument: split on runs of whitespace,
dropping empty tokens. -/
def splitWS : PyStr → List PyStr
  | [] => []
  | c :: rest =>
    if c.isWhitespace then splitWS rest
    else
      match rest, splitWS rest with
      | _, [] => [[c]]
      | r :: _, t :: ts => if r.isWhitespace then [c] :: t :: ts else (c :: t) :: ts
      | [], t :: ts => (c :: t) :: ts

/-- Python `str.split('/')`: split on every `'/'`, keeping empty components. -/
def splitOnSlash : PyStr → List PyStr
  | [] => [[]]
  | c :: rest =>
    let r := splitOnSlash rest
    if c = '/' then [] :: r
    else
      match r with
      | [] => [[c]]
      | s :: ss => (c :: s) :: ss

/-- Python `line.startswith('#')`. -/
def startsWithHash : PyStr → Bool
  | [] => false
  | c :: _ => c = '#'

/-- Read a nonempty digit string into a natural number; `none` on any
non-digit character (accumulator variant). -/
def digitsToNatAux : ℕ → PyStr → Option ℕ
  | acc, [] => some acc
  | acc, c :: rest => if c.isDigit then digitsToNatAux (10 * acc + (c.toNat - 48)) rest else none

/-- Read a nonempty digit string into a natural number; `none` otherwise. -/
def digitsToNat : PyStr → Option ℕ
  | [] => none
  | s => digitsToNatAux 0 s

/-- Python `int(s)` on a token: optional sign, then a nonempty run of
digits; any other shape raises (`none`). -/
def parseInt : PyStr → Option ℤ
  | '-' :: rest => (digitsToNat rest).map (fun n => -(n : ℤ))
  | '+' :: rest => (digitsToNat rest).map (fun n => (n : ℤ))
  | s => (digitsToNat s).map (fun n => (n : ℤ))

/-- Split a token at its first `'.'`, if any. -/
def splitDot : PyStr → PyStr × Option PyStr
  | [] => ([], none)
  | c :: rest =>
    if c = '.' then ([], some rest)
    else
      let p := splitDot rest
      (c :: p.1, p.2)

/-- Python `float(s)` restricted to plain decimal literals: digits with an
optional single decimal point and at least one digit overall.  (Exponent
and `inf`/`nan` forms never occur in the inputs the claims are about.) -/
def parseUnsignedFloat (s : PyStr) : Option ℚ :=
  match splitDot s with
  | (ip, none) => (digitsToNat ip).map (fun n => (n : ℚ))
  | (ip, some fp) =>
    if ip = [] ∧ fp = [] then none
    else
      match (if ip = [] then some 0 else digitsToNat ip),
            (if fp = [] then some 0 else digitsToNat fp) with
      | some i, some f => some ((i : ℚ) + (f : ℚ) / (10 : ℚ) ^ fp.length)
      | _, _ => none

/-- Python `float(s)` on a token: optional sign, then `parseUnsignedFloat`. -/
def parseFloat : PyStr → Option ℚ
  | '-' :: rest => (parseUnsignedFloat rest).map (fun q => -q)
  | '+' :: rest => parseUnsignedFloat rest
  | s => parseUnsignedFloat s

/-- The mesh data held by `OBJModel`: `vertices`, `normals`, `faces`,
where a face is a list of `(vertex_index, normal_index)` pairs and `-1`
is the absent-normal sentinel. -/
structure OBJModel where
  vertices : List (List ℚ)
  normals : List (List ℚ)
  faces : List (List (ℤ × ℤ))
  deriving DecidableEq

/-- The empty mesh, as set up at the start of `OBJModel.load`. -/
def emptyModel : OBJModel := ⟨[], [], []⟩

/-- One face-vertex reference, `w = v.split('/')` in `OBJModel.load`:
`len(w) >= 3` gives `(int(w[0]) - 1, int(w[2]) - 1 if w[2] else -1)`;
`len(w) == 2` gives `(int(w[0]) - 1, int(w[1]) - 1)`; otherwise
`(int(w[0]) - 1, -1)`.  A failing `int` conversion raises (`none`). -/
def parseFaceRef (v : PyStr) : Option (ℤ × ℤ) :=
  match splitOnSlash v with
  | w0 :: _ :: w2 :: _ =>
    (parseInt w0).bind (fun a =>
      (if w2 = [] then some (-1)
       else (parseInt w2).map (fun n => n - 1)).map (fun b => (a - 1, b)))
  | [w0, w1] =>
    (parseInt w0).bind (fun a => (parseInt w1).map (fun b => (a - 1, b - 1)))
  | [w0] => (parseInt w0).map (fun a => (a - 1, -1))
  | [] => none

/-- One iteration of the `for line in f` loop of `OBJModel.load`; `none`
models a raised parse exception.  A face line appends to `faces` only
after every reference converted, matching `self.faces.append(face)`
running after the inner loop. -/
def processLine (m : OBJModel) (line : PyStr) : Option OBJModel :=
  if startsWithHash line then some m
  else
    match splitWS line with
    | [] => some m
    | key :: rest =>
      if key = ['v'] then
        (((rest.take 3).mapM parseFloat).map
          (fun v => {m with vertices := m.vertices ++ [v]}))
      else if key = ['v', 'n'] then
        (((rest.take 3).mapM parseFloat).map
          (fun n => {m with normals := m.normals ++ [n]}))
      else if key = ['f'] then
        ((rest.mapM parseFaceRef).map (fun f => {m with faces := m.faces ++ [f]}))
      else some m

/-- The line loop of `OBJModel.load`, threading the partially built model;
an exception stops the loop and yields `(false, partial model)`, matching
the `except` clause returning `False` with `self` partially mutated. -/
def loadCore : OBJModel → List PyStr → Bool × OBJModel
  | m, [] => (true, m)
  | m, l :: ls =>
    match processLine m l with
    | some m2 => loadCore m2 ls
    | none => (false, m)

/-- `OBJModel.load`: the three lists are reset to `[]` before parsing, so
the result never depends on the previous contents of the model; the
`Bool` is the method's return value. -/
def OBJModel.load (_self : OBJModel) (content : List PyStr) : Bool × OBJModel :=
  loadCore emptyModel content

/-- Convenience: file contents given as string literals, one per line. -/
def pyLines (ls : List String) : List PyStr := ls.map String.toList

/-- The human-visible outcome strings of `OBJViewer.load_obj`, abstracted
to their three shapes: the success summary with vertex and face counts,
the fixed failure string, and the file-not-found string. -/
inductive LoadMsg where
  | loaded : ℕ → ℕ → LoadMsg
  | failed : LoadMsg
  | notFound : LoadMsg
  deriving DecidableEq

/-- The per-widget state of an `OBJViewer`: its own `OBJModel`, rotation
angles, zoom, last pointer position and derived bounds. -/
structure Viewer where
  objModel : OBJModel
  rotation_x : ℚ
  rotation_y : ℚ
  rotation_z : ℚ
  zoom : ℚ
  last_pos : ℤ × ℤ
  model_center : List ℚ
  model_size : ℚ
  deriving DecidableEq

/-- `OBJViewer.__init__`: fresh empty model, zero rotations, `zoom = 2.0`,
default center `(0,0,0)` and size `1.0`. -/
def initViewer : Viewer :=
  { objModel := emptyModel, rotation_x := 0, rotation_y := 0, rotation_z := 0,
    zoom := 2, last_pos := (0, 0), model_center := [0, 0, 0], model_size := 1 }

/-- `np.max` over a one-dimensional array, modelled on a list. -/
def listMax : List ℚ → ℚ
  | [] => 0
  | x :: xs => xs.foldl max x

/-- `np.min(np.array(vertices), axis=0)`: component-wise minimum.  Only
invoked on rows of equal positive length (the `BoundsOutcome.ok` branch
of `boundsStep`), where `zipWith` coincides exactly with the numpy
reduction; ragged or zero-width rows are diverted to the raise branches
before this runs. -/
def vertsMin : List (List ℚ) → List ℚ
  | [] => []
  | v :: vs => vs.foldl (List.zipWith min) v

/-- `np.max(np.array(vertices), axis=0)`: component-wise maximum, under
the same equal-positive-length proviso as `vertsMin`. -/
def vertsMax : List (List ℚ) → List ℚ
  | [] => []
  | v :: vs => vs.foldl (List.zipWith max) v

/-- Outcome of the bounds block of `OBJViewer.load_obj` (the four
statements from `min_bounds = ...` to `self.model_size = ...`):
`ok center size` when every statement runs, or one of two raise points:
`raisedAtArray` when `np.array(self.obj_model.vertices)` raises
`ValueError` on rows of unequal length (nothing assigned yet), and
`raisedAtSize` when every row has length 0, so `min_bounds`/`max_bounds`
are empty arrays, `model_center` is assigned the empty array, and then
`np.max` of the empty span array raises `ValueError`. -/
inductive BoundsOutcome where
  | ok : List ℚ → ℚ → BoundsOutcome
  | raisedAtSize : BoundsOutcome
  | raisedAtArray : BoundsOutcome
  deriving DecidableEq

/-- The bounds block of `OBJViewer.load_obj` as a function of the parsed
vertex rows.  (The `[]` case is unreachable behind the
`if self.obj_model.vertices:` guard; `np.min` of an empty axis would
also raise, so it is mapped to the before-assignment raise.) -/
def boundsStep : List (List ℚ) → BoundsOutcome
  | [] => BoundsOutcome.raisedAtArray
  | v0 :: vrest =>
    if vrest.all (fun row => row.length == v0.length) then
      if v0.length = 0 then BoundsOutcome.raisedAtSize
      else
        BoundsOutcome.ok
          (List.zipWith (fun a b => (a + b) / 2) (vertsMin (v0 :: vrest)) (vertsMax (v0 :: vrest)))
          (listMax (List.zipWith (fun a b => a - b) (vertsMax (v0 :: vrest)) (vertsMin (v0 :: vrest))))
    else BoundsOutcome.raisedAtArray

/-- How a call to `OBJViewer.load_obj` ends: a normal
`return success, message`, or an uncaught `ValueError` escaping the
method (`exn`) — `load_obj` has no try/except of its own. -/
inductive LoadReturn where
  | ret : Bool → LoadMsg → LoadReturn
  | exn : LoadReturn
  deriving DecidableEq

/-- Result of `OBJViewer.load_obj`: the widget state after the call (at
the raise point, for an exception), how the call ended, and the number
of `OBJModel.load` invocations performed along the executed path. -/
structure LoadResult where
  viewer : Viewer
  result : LoadReturn
  loaderCalls : ℕ
  deriving DecidableEq

/-- `OBJViewer.load_obj(filename)`.  `ex` models `os.path.exists(filename)`;
`content` is the file's lines.  On a successful parse with nonempty
vertices the bounds block runs: if it completes, `model_center` and
`model_size` are assigned and `(True, summary)` is returned; if it
raises (`boundsStep`), the `ValueError` escapes `load_obj` with the
state assigned so far (`model_center := []` when the raise is at the
`np.max` of the empty span array).  A parse failure or an empty-vertex
parse falls through to `(False, "Failed to load OBJ file")`; the
(possibly partial) `obj_model` stays in the widget in every case. -/
def viewerLoadObj (v : Viewer) (ex : Bool) (content : List PyStr) : LoadResult :=
  if ex then
    let r := OBJModel.load v.objModel content
    let v1 := {v with objModel := r.2}
    if r.1 = true ∧ r.2.vertices ≠ [] then
      match boundsStep r.2.vertices with
      | BoundsOutcome.ok c s =>
        ⟨{v1 with model_center := c, model_size := s},
          LoadReturn.ret true (LoadMsg.loaded r.2.vertices.length r.2.faces.length), 1⟩
      | BoundsOutcome.raisedAtSize =>
        ⟨{v1 with model_center := []}, LoadReturn.exn, 1⟩
      | BoundsOutcome.raisedAtArray => ⟨v1, LoadReturn.exn, 1⟩
    else ⟨v1, LoadReturn.ret false LoadMsg.failed, 1⟩
  else ⟨v, LoadReturn.ret false LoadMsg.notFound, 0⟩

/-- A pointer or wheel event: `press x y`, `move x y leftButtonDown`, or
`wheel angleDeltaY` (the raw `event.angleDelta().y()`). -/
inductive PEvent where
  | press : ℤ → ℤ → PEvent
  | move : ℤ → ℤ → Bool → PEvent
  | wheel : ℚ → PEvent
  deriving DecidableEq

/-- `OBJViewer.mousePressEvent`, `mouseMoveEvent` and `wheelEvent`:
press records the position; a move with the left button held adds
`0.5` degrees per pixel to `rotation_y`/`rotation_x` and records the
position; a wheel event multiplies the zoom by `1.1` when
`angleDelta.y() / 120 > 0`, divides otherwise, then clamps to
`[0.1, 10.0]`. -/
def applyEvent (v : Viewer) : PEvent → Viewer
  | PEvent.press x y => {v with last_pos := (x, y)}
  | PEvent.move x y left =>
    let v1 :=
      if left then
        {v with
          rotation_y := v.rotation_y + ((x - v.last_pos.1 : ℤ) : ℚ) * (1 / 2),
          rotation_x := v.rotation_x + ((y - v.last_pos.2 : ℤ) : ℚ) * (1 / 2)}
      else v
    {v1 with last_pos := (x, y)}
  | PEvent.wheel angleY =>
    let delta := angleY / 120
    let z := if delta > 0 then v.zoom * (11 / 10) else v.zoom / (11 / 10)
    {v with zoom := max (1 / 10) (min z 10)}

/-- The state of `MultiViewOBJViewer`: two independent `OBJViewer`
widgets and the last successfully loaded file name. -/
structure MultiView where
  top_viewer : Viewer
  bottom_viewer : Viewer
  current_model_file : Option PyStr
  deriving DecidableEq

/-- `MultiViewOBJViewer.__init__`: the top viewer keeps rotations
`(0, 0, 0)`; the bottom viewer gets `rotation_y = 90`,
`rotation_x = -60`, `rotation_z = 90`. -/
def initMultiView : MultiView :=
  ⟨initViewer,
   {initViewer with rotation_y := 90, rotation_x := -60, rotation_z := 90},
   none⟩

/-- The message returned by `MultiViewOBJViewer.load_obj`, abstracted to
its four shapes: the fixed both-views success string, the two
error-combining strings, and the `except` clause's
`"Exception loading model: ..."` string. -/
inductive MultiMsg where
  | bothLoaded : MultiMsg
  | secondFailed : LoadMsg → MultiMsg
  | firstFailed : LoadMsg → MultiMsg
  | exception : MultiMsg
  deriving DecidableEq

/-- Result of `MultiViewOBJViewer.load_obj`, with the total number of
`OBJModel.load` invocations performed. -/
structure MultiLoadResult where
  mv : MultiView
  ok : Bool
  msg : MultiMsg
  loaderCalls : ℕ
  deriving DecidableEq

/-- `MultiViewOBJViewer.load_obj(filename)`: inside a `try`, calls
`load_obj` on the top viewer, then on the bottom viewer, and combines
the two results; an exception escaping either `load_obj` skips the rest
of the `try` block (a top-slot exception means the bottom viewer's
`load_obj` never runs) and the `except` clause returns
`(False, "Exception loading model: ...")` with the widgets left in
whatever state they reached. -/
def multiViewLoadObj (mv : MultiView) (fname : PyStr) (ex : Bool) (content : List PyStr) :
    MultiLoadResult :=
  match viewerLoadObj mv.top_viewer ex content with
  | ⟨tv, LoadReturn.exn, n1⟩ =>
    ⟨{mv with top_viewer := tv}, false, MultiMsg.exception, n1⟩
  | ⟨tv, LoadReturn.ret ok1 msg1, n1⟩ =>
    match viewerLoadObj mv.bottom_viewer ex content with
    | ⟨bv, LoadReturn.exn, n2⟩ =>
      ⟨{mv with top_viewer := tv, bottom_viewer := bv}, false, MultiMsg.exception, n1 + n2⟩
    | ⟨bv, LoadReturn.ret ok2 msg2, n2⟩ =>
      let mv1 := {mv with top_viewer := tv, bottom_viewer := bv}
      if ok1 = true ∧ ok2 = true then
        ⟨{mv1 with current_model_file := some fname}, true, MultiMsg.bothLoaded, n1 + n2⟩
      else if ok1 = true then ⟨mv1, false, MultiMsg.secondFailed msg2, n1 + n2⟩
      else ⟨mv1, false, MultiMsg.firstFailed msg1, n1 + n2⟩

/-- One of the two viewer slots of `MultiViewOBJViewer`. -/
inductive Slot where
  | top : Slot
  | bottom : Slot
  deriving DecidableEq

/-- The slot that an event does not address. -/
def Slot.other : Slot → Slot
  | Slot.top => Slot.bottom
  | Slot.bottom => Slot.top

/-- The viewer widget held in a slot. -/
def slotViewer (mv : MultiView) : Slot → Viewer
  | Slot.top => mv.top_viewer
  | Slot.bottom => mv.bottom_viewer

/-- Qt delivers a pointer or wheel event to exactly the widget under the
pointer; dispatching to a slot runs that widget's handler. -/
def dispatchEvent (mv : MultiView) (s : Slot) (e : PEvent) : MultiView :=
  match s with
  | Slot.top => {mv with top_viewer := applyEvent mv.top_viewer e}
  | Slot.bottom => {mv with bottom_viewer := applyEvent mv.bottom_viewer e}

/-- Python list indexing `l[i]`: a nonnegative index must be below the
length, a negative index is taken from the end; anything else raises
`IndexError` (`none`). -/
def pyGet (l : List α) (i : ℤ) : Option α :=
  if 0 ≤ i then (if i < (l.length : ℤ) then l.get? i.toNat else none)
  else (if 0 ≤ (l.length : ℤ) + i then l.get? ((l.length : ℤ) + i).toNat else none)

/-- One vertex of the emitted `GL_TRIANGLES` stream: its position and the
current normal at the moment `glVertex3fv` ran (`none` when no
`glNormal3fv` call has happened yet inside the batch). -/
structure RVertex where
  pos : List ℚ
  normal : Option (List ℚ)
  deriving DecidableEq

/-- OpenGL immediate-mode state inside a `glBegin`/`glEnd` batch: the
current normal and the vertices emitted so far. -/
structure GLSt where
  curNormal : Option (List ℚ)
  stream : List RVertex
  deriving DecidableEq

/-- The first loop body of the face rendering in `paintGL` (indices `0`
to `min(3, len(face)) - 1`): `glNormal3fv(normals[ni])` only when
`ni >= 0 and ni < len(normals)`, `glVertex3fv(vertices[vi])` only when
`vi >= 0 and vi < len(vertices)`; out-of-range references are skipped
and nothing can raise here. -/
def emitChecked (m : OBJModel) (st : GLSt) (r : ℤ × ℤ) : GLSt :=
  let st1 :=
    if 0 ≤ r.2 ∧ r.2 < (m.normals.length : ℤ)
    then {st with curNormal := pyGet m.normals r.2} else st
  if 0 ≤ r.1 ∧ r.1 < (m.vertices.length : ℤ)
  then {st1 with stream := st1.stream ++ [⟨(pyGet m.vertices r.1).getD [], st1.curNormal⟩]}
  else st1

/-- One vertex emission in the fan-triangulation loop of `paintGL`:
`if ni >= 0: glNormal3fv(self.obj_model.normals[ni])` (no upper-bound
check) followed by an unconditional
`glVertex3fv(self.obj_model.vertices[vi])`; either indexing can raise
`IndexError` (`none`). -/
def emitUnchecked (m : OBJModel) (st : GLSt) (r : ℤ × ℤ) : Option GLSt :=
  (if 0 ≤ r.2
   then (pyGet m.normals r.2).map (fun n => {st with curNormal := some n})
   else some st).bind
    (fun st1 =>
      (pyGet m.vertices r.1).map
        (fun v => {st1 with stream := st1.stream ++ [⟨v, st1.curNormal⟩]}))

/-- The `for i in range(3, len(face))` loop of `paintGL`: at index `i` it
emits `face[0]`, `face[i-1]`, `face[i]` through `emitUnchecked`.  Here
`prev` is `face[i-1]` and the list argument holds `face[i], ...`. -/
def fanLoop (m : OBJModel) (f0 : ℤ × ℤ) : (ℤ × ℤ) → List (ℤ × ℤ) → GLSt → Option GLSt
  | _, [], st => some st
  | prev, c :: rest, st =>
    (emitUnchecked m st f0).bind (fun s1 =>
      (emitUnchecked m s1 prev).bind (fun s2 =>
        (emitUnchecked m s2 c).bind (fun s3 => fanLoop m f0 c rest s3)))

/-- Rendering of one face inside the `GL_TRIANGLES` batch of `paintGL`:
the bounded loop over the first `min(3, len(face))` references, then the
fan loop over indices `3 .. len(face) - 1`. -/
def renderFace (m : OBJModel) (face : List (ℤ × ℤ)) (st : GLSt) : Option GLSt :=
  let st1 := (face.take 3).foldl (emitChecked m) st
  match face with
  | f0 :: _ :: f2 :: rest => fanLoop m f0 f2 rest st1
  | _ => some st1

/-- The `for face in self.obj_model.faces` loop of `paintGL`, threading
the GL state; a raised `IndexError` (`none`) aborts the whole loop. -/
def renderFaces (m : OBJModel) : List (List (ℤ × ℤ)) → GLSt → Option GLSt
  | [], st => some st
  | f :: fs, st => (renderFace m f st).bind (renderFaces m fs)

/-- The `GL_TRIANGLES` batch of `paintGL`: drawn only when
`self.obj_model.vertices` is nonempty, iterating over all faces with the
GL state threaded through; `none` models an uncaught `IndexError`
aborting the frame.  The matrix calls and the axis gizmo around the
batch cannot raise and do not touch the triangle stream. -/
def renderFrame (m : OBJModel) : Option (List RVertex) :=
  if m.vertices = [] then some []
  else (renderFaces m m.faces ⟨none, []⟩).map GLSt.stream

/-- A face reference whose vertex index is in range and whose normal
index, when nonnegative, is in range. -/
def refInRange (m : OBJModel) (r : ℤ × ℤ) : Prop :=
  0 ≤ r.1 ∧ r.1 < (m.vertices.length : ℤ) ∧ (0 ≤ r.2 → r.2 < (m.normals.length : ℤ))

instance (m : OBJModel) (r : ℤ × ℤ) : Decidable (refInRange m r) :=
  decidable_of_iff
    (0 ≤ r.1 ∧ r.1 < (m.vertices.length : ℤ) ∧ (0 ≤ r.2 → r.2 < (m.normals.length : ℤ)))
    Iff.rfl

/-- The vertex position a reference resolves to (the list default is
never used for an in-range reference). -/
def resolvePos (m : OBJModel) (r : ℤ × ℤ) : List ℚ :=
  (pyGet m.vertices r.1).getD []

/-- Spec-side definition, for the refinement claim about triangulation
(spec 4.3 step 6): a face with more than 3 references triangulates as a
fan anchored at the first reference, one triangle `(first, i-1, i)` for
each `i` from `2` to the last index. -/
def specFan : List (ℤ × ℤ) → List ((ℤ × ℤ) × (ℤ × ℤ) × (ℤ × ℤ))
  | f0 :: f1 :: rest => ((f1 :: rest).zip rest).map (fun pc => (f0, pc.1, pc.2))
  | _ => []

/-- Failing input for C1: the second vertex line has a non-numeric token. -/
def c1bad : List PyStr := pyLines ["v 0 0 0", "v a 0 0"]

/-- A previously loaded model, to observe what a later failing load does to it. -/
def c1prev : OBJModel := ⟨[[5, 5, 5]], [], [[(0, -1)]]⟩

/-- Input for C5: the spec's malformed face line. -/
def c5content : List PyStr := pyLines ["f 1/a/2"]

/-- Input for C4: the spec's scenario file. -/
def c4content : List PyStr := pyLines ["v 0 0 0", "v 1 0 0", "v 0 1 0", "f 1 2 3"]

/-- The mesh the C4 scenario parses to. -/
def c4mesh : OBJModel := ⟨[[0, 0, 0], [1, 0, 0], [0, 1, 0]], [], [[(0, -1), (1, -1), (2, -1)]]⟩

/-- Input whose load succeeds, for the C3 call-count counterexample. -/
def c3good : List PyStr := pyLines ["v 0 0 0"]

/-- Input whose load fails after one parsed vertex, for the C3 counterexample. -/
def c3bad : List PyStr := pyLines ["v 1 1 1", "v a"]

/-- The one-token file `v`: it parses to the single zero-component vertex
row `[[]]`, so the bounds block raises at `np.max` of the empty span
array. -/
def c8bad : List PyStr := pyLines ["v"]

/-- Mesh whose only face has four references, the fourth with an
out-of-range vertex index: the fan loop indexes `vertices[5]` unchecked. -/
def c2badMesh : OBJModel := ⟨[[0, 0, 0]], [], [[(0, -1), (0, -1), (0, -1), (5, -1)]]⟩

/-- Mesh with one short face holding an out-of-range reference and one
long face with all references in range, for the C2 witness. -/
def c2mesh : OBJModel :=
  ⟨[[0, 0, 0], [1, 0, 0], [0, 1, 0], [0, 0, 1]], [],
   [[(0, -1), (9, -1), (2, -1)], [(0, -1), (1, -1), (2, -1), (3, -1)]]⟩

/-- Mesh for the C9 witness. -/
def c9mesh : OBJModel :=
  ⟨[[0, 0, 0], [1, 0, 0], [1, 1, 0], [0, 1, 0], [0, 0, 1]], [[0, 0, 1]], []⟩

/-- A five-reference face, all indices in range for `c9mesh`. -/
def c9face : List (ℤ × ℤ) := [(0, 0), (1, -1), (2, 0), (3, -1), (4, 0)]

/-! ## Theorems -/

/-- Splitting the line list around any point splits the run of `loadCore`:
the second part runs only when the first part parsed completely. -/
theorem loadCore_append (xs ys : List PyStr) : ∀ m : OBJModel,
    loadCore m (xs ++ ys) =
      (if (loadCore m xs).1 = true then loadCore (loadCore m xs).2 ys else loadCore m xs) := by
  induction xs with
  | nil => intro m; simp [loadCore]
  | cons l ls ih =>
    intro m
    cases hpl : processLine m l with
    | some m2 => simp [loadCore, hpl, ih m2]
    | none => simp [loadCore, hpl]

/-- Claim C1 (corrected): a parse failure aborts the load at the failing
line and is returned as a `False` result (never raised past the loader),
but the partially built lists are not discarded — after a failed load the
model holds exactly the records parsed from the lines before the failing
one, and the previously loaded mesh (`m`, ignored below) is always
cleared at the start of the call, so partial mutation is visible. -/
theorem c1_failed_load_keeps_partial (pre : List PyStr) (bad : PyStr) (rest : List PyStr)
    (m mp : OBJModel)
    (hpre : loadCore emptyModel pre = (true, mp))
    (hbad : processLine mp bad = none) :
    OBJModel.load m (pre ++ bad :: rest) = (false, mp) := by
  unfold OBJModel.load
  rw [loadCore_append pre (bad :: rest) emptyModel, hpre]
  simp [loadCore, hbad]

/-- Claim C1 counterexample: on the failing input `c1bad`, a first load
leaves one vertex (not an empty mesh), and a load over a previously
loaded model `c1prev` leaves a mesh equal neither to `c1prev` nor to the
empty mesh — partial mutation is visible, refuting the claim as stated. -/
theorem c1_counterexample :
    (OBJModel.load emptyModel c1bad).1 = false ∧
    (OBJModel.load emptyModel c1bad).2.vertices = [[0, 0, 0]] ∧
    (OBJModel.load c1prev c1bad).2 ≠ c1prev ∧
    (OBJModel.load c1prev c1bad).2 ≠ emptyModel := by decide

/-- Witness for `c1_failed_load_keeps_partial` at a concrete input. -/
theorem c1_witness :
    (loadCore emptyModel (pyLines ["v 0 0 0"]) = (true, ⟨[[0, 0, 0]], [], []⟩) ∧
     processLine ⟨[[0, 0, 0]], [], []⟩ (String.toList "v a 0 0") = none) ∧
    OBJModel.load c1prev (pyLines ["v 0 0 0"] ++ String.toList "v a 0 0" :: []) =
      (false, ⟨[[0, 0, 0]], [], []⟩) :=
  ⟨⟨by decide, by decide⟩,
   c1_failed_load_keeps_partial (pyLines ["v 0 0 0"]) (String.toList "v a 0 0") [] c1prev
     ⟨[[0, 0, 0]], [], []⟩ (by decide) (by decide)⟩

/-- Claim C5 counterexample: loading the file `f 1/a/2` succeeds (returns
`True`) instead of failing with a parse error. -/
theorem c5_counterexample :
    (OBJModel.load emptyModel c5content).1 = true ∧
    (OBJModel.load emptyModel c5content).2 = ⟨[], [], [[(0, 1)]]⟩ := by decide

/-- Claim C5 (corrected): loading `f 1/a/2` succeeds from any prior model
state, because in the three-component branch the middle (texture)
component is never parsed; the face resolves to `[(0, 1)]`. -/
theorem c5_middle_component_ignored (m : OBJModel) :
    OBJModel.load m c5content = (true, ⟨[], [], [[(0, 1)]]⟩) := rfl

/-- Claim C6 (corrected): a syntactically successful load that produced
zero vertices is reported by `load_obj` as a hard failure
`(False, "Failed to load OBJ file")`, not as a soft warning — in the
returned success flag it is indistinguishable from a parse error.
(With zero vertices the bounds block never runs, so this region of
`load_obj` has no exception path.) -/
theorem c6_empty_mesh_reported_failed (v : Viewer) (content : List PyStr)
    (hok : (OBJModel.load v.objModel content).1 = true)
    (hempty : (OBJModel.load v.objModel content).2.vertices = []) :
    (viewerLoadObj v true content).result = LoadReturn.ret false LoadMsg.failed := by
  simp [viewerLoadObj, hok, hempty]

/-- Claim C6 counterexample: an empty file parses successfully with zero
vertices, yet the load entry point reports failure. -/
theorem c6_counterexample :
    (OBJModel.load initViewer.objModel ([] : List PyStr)).1 = true ∧
    (OBJModel.load initViewer.objModel ([] : List PyStr)).2.vertices = [] ∧
    (viewerLoadObj initViewer true []).result = LoadReturn.ret false LoadMsg.failed := by
  decide

/-- Witness for `c6_empty_mesh_reported_failed` at a concrete input. -/
theorem c6_witness :
    ((OBJModel.load initViewer.objModel ([] : List PyStr)).1 = true ∧
     (OBJModel.load initViewer.objModel ([] : List PyStr)).2.vertices = []) ∧
    (viewerLoadObj initViewer true []).result = LoadReturn.ret false LoadMsg.failed :=
  ⟨⟨by decide, by decide⟩, c6_empty_mesh_reported_failed initViewer [] (by decide) (by decide)⟩

/-- Claim C4 counterexample: for the scenario file the code's bounds
center is `(0.5, 0.5, 0)` — the midpoint of the bounding box `(0,0,0)`
to `(1,1,0)` — not the claimed `(0.33, 0.33, 0)` (nor the centroid
`(1/3, 1/3, 0)` that value approximates). -/
theorem c4_counterexample :
    (viewerLoadObj initViewer true c4content).viewer.model_center = [1 / 2, 1 / 2, 0] ∧
    (viewerLoadObj initViewer true c4content).viewer.model_center ≠ [33 / 100, 33 / 100, 0] ∧
    (viewerLoadObj initViewer true c4content).viewer.model_center ≠ [1 / 3, 1 / 3, 0] := by
  have h : OBJModel.load initViewer.objModel c4content = (true, c4mesh) := by decide
  have hb : boundsStep [[0, 0, 0], [1, 0, 0], [0, 1, 0]] = BoundsOutcome.ok [1 / 2, 1 / 2, 0] 1 := by
    norm_num [boundsStep, vertsMin, vertsMax, listMax, min_def, max_def]
  simp [viewerLoadObj, h, c4mesh, hb]
  norm_num

/-- Claim C4 (corrected): the scenario file loads successfully (its
uniform 3-component rows take the non-raising branch of the bounds
block) into a mesh with 3 vertices and the face `[(0,-1),(1,-1),(2,-1)]`;
the derived bounds have center `(0.5, 0.5, 0)` (the midpoint of the
axis-aligned bounding box) and extent `1`. -/
theorem c4_scenario_bounds :
    (viewerLoadObj initViewer true c4content).result =
      LoadReturn.ret true (LoadMsg.loaded 3 1) ∧
    (viewerLoadObj initViewer true c4content).viewer.objModel.vertices.length = 3 ∧
    (viewerLoadObj initViewer true c4content).viewer.objModel.faces =
      [[(0, -1), (1, -1), (2, -1)]] ∧
    (viewerLoadObj initViewer true c4content).viewer.model_center = [1 / 2, 1 / 2, 0] ∧
    (viewerLoadObj initViewer true c4content).viewer.model_size = 1 := by
  have h : OBJModel.load initViewer.objModel c4content = (true, c4mesh) := by decide
  have hb : boundsStep [[0, 0, 0], [1, 0, 0], [0, 1, 0]] = BoundsOutcome.ok [1 / 2, 1 / 2, 0] 1 := by
    norm_num [boundsStep, vertsMin, vertsMax, listMax, min_def, max_def]
  simp [viewerLoadObj, h, c4mesh, hb]

/-- `load_obj` makes exactly one `OBJModel.load` call whenever the file
exists, on every path of the bounds block. -/
theorem viewerLoadObj_calls_true (v : Viewer) (content : List PyStr) :
    (viewerLoadObj v true content).loaderCalls = 1 := by
  by_cases hc : (loadCore emptyModel content).1 = true ∧
      (loadCore emptyModel content).2.vertices ≠ []
  · cases hb : boundsStep (loadCore emptyModel content).2.vertices <;>
      simp [viewerLoadObj, OBJModel.load, hc, hb]
  · simp [viewerLoadObj, OBJModel.load, hc]

/-- How `load_obj` ends — its return value or its raise — depends only on
the file's contents, not on the widget's prior state, because
`OBJModel.load` parses from the empty model and the bounds block reads
only the parse result. -/
theorem viewerLoadObj_result_const (v w : Viewer) (ex : Bool) (content : List PyStr) :
    (viewerLoadObj v ex content).result = (viewerLoadObj w ex content).result := by
  cases ex with
  | false => rfl
  | true =>
    by_cases hc : (loadCore emptyModel content).1 = true ∧
        (loadCore emptyModel content).2.vertices ≠ []
    · cases hb : boundsStep (loadCore emptyModel content).2.vertices <;>
        simp [viewerLoadObj, OBJModel.load, hc, hb]
    · simp [viewerLoadObj, OBJModel.load, hc]

/-- After any `load_obj` call on an existing file — normal return, parse
failure, or bounds exception — the widget's mesh is the parse of the
file's lines from the empty model. -/
theorem viewerLoadObj_objModel_true (v : Viewer) (content : List PyStr) :
    (viewerLoadObj v true content).viewer.objModel = (loadCore emptyModel content).2 := by
  by_cases hc : (loadCore emptyModel content).1 = true ∧
      (loadCore emptyModel content).2.vertices ≠ []
  · cases hb : boundsStep (loadCore emptyModel content).2.vertices <;>
      simp [viewerLoadObj, OBJModel.load, hc, hb]
  · simp [viewerLoadObj, OBJModel.load, hc]

/-- The coordinator's loader call count: none when the file is missing,
one when the top slot's `load_obj` raises (the bottom slot's `load_obj`
never runs), two otherwise. -/
theorem multiLoad_calls_eq (mv : MultiView) (fname : PyStr) (ex : Bool)
    (content : List PyStr) :
    (multiViewLoadObj mv fname ex content).loaderCalls =
      (if ex = false then 0
       else if (viewerLoadObj mv.top_viewer ex content).result = LoadReturn.exn then 1
       else 2) := by
  cases ex with
  | false => rfl
  | true =>
    cases h1 : viewerLoadObj mv.top_viewer true content with
    | mk tv res1 n1 =>
      have hn1 : n1 = 1 := by
        have h := viewerLoadObj_calls_true mv.top_viewer content
        rw [h1] at h
        exact h
      cases res1 with
      | exn => simp [multiViewLoadObj, h1, hn1]
      | ret ok1 msg1 =>
        cases h2 : viewerLoadObj mv.bottom_viewer true content with
        | mk bv res2 n2 =>
          have hn2 : n2 = 1 := by
            have h := viewerLoadObj_calls_true mv.bottom_viewer content
            rw [h2] at h
            exact h
          have hres : res2 = LoadReturn.ret ok1 msg1 := by
            have h := viewerLoadObj_result_const mv.top_viewer mv.bottom_viewer true content
            rw [h1, h2] at h
            exact h.symm
          subst hres
          by_cases hok : ok1 = true
          · simp [multiViewLoadObj, h1, h2, hn1, hn2, hok]
          · simp [multiViewLoadObj, h1, h2, hn1, hn2, hok]

/-- When the top slot's `load_obj` does not raise, both slots run and end
with equal mesh contents, given they held equal meshes before. -/
theorem multiLoad_mesh_eq_of_no_exn (mv : MultiView) (fname : PyStr) (ex : Bool)
    (content : List PyStr)
    (hm : mv.top_viewer.objModel = mv.bottom_viewer.objModel)
    (hnr : (viewerLoadObj mv.top_viewer ex content).result ≠ LoadReturn.exn) :
    (multiViewLoadObj mv fname ex content).mv.top_viewer.objModel =
      (multiViewLoadObj mv fname ex content).mv.bottom_viewer.objModel := by
  cases ex with
  | false => exact hm
  | true =>
    cases h1 : viewerLoadObj mv.top_viewer true content with
    | mk tv res1 n1 =>
      cases res1 with
      | exn =>
        rw [h1] at hnr
        simp at hnr
      | ret ok1 msg1 =>
        cases h2 : viewerLoadObj mv.bottom_viewer true content with
        | mk bv res2 n2 =>
          have hres : res2 = LoadReturn.ret ok1 msg1 := by
            have h := viewerLoadObj_result_const mv.top_viewer mv.bottom_viewer true content
            rw [h1, h2] at h
            exact h.symm
          subst hres
          have hto : tv.objModel = (loadCore emptyModel content).2 := by
            have h := viewerLoadObj_objModel_true mv.top_viewer content
            rw [h1] at h
            exact h
          have hbo : bv.objModel = (loadCore emptyModel content).2 := by
            have h := viewerLoadObj_objModel_true mv.bottom_viewer content
            rw [h2] at h
            exact h
          by_cases hok : ok1 = true
          · simp [multiViewLoadObj, h1, h2, hok, hto, hbo]
          · simp [multiViewLoadObj, h1, h2, hok, hto, hbo]

/-- The coordinator's exception path: when the top slot's `load_obj`
raises, the bottom slot keeps its previous state and the single returned
failure reason is the `except` clause's exception message. -/
theorem multiLoad_exn_path (mv : MultiView) (fname : PyStr) (ex : Bool)
    (content : List PyStr)
    (hr : (viewerLoadObj mv.top_viewer ex content).result = LoadReturn.exn) :
    (multiViewLoadObj mv fname ex content).mv.bottom_viewer = mv.bottom_viewer ∧
    (multiViewLoadObj mv fname ex content).ok = false ∧
    (multiViewLoadObj mv fname ex content).msg = MultiMsg.exception := by
  cases h1 : viewerLoadObj mv.top_viewer ex content with
  | mk tv res1 n1 =>
    rw [h1] at hr
    simp at hr
    subst hr
    simp [multiViewLoadObj, h1]

/-- Claim C3 (corrected): the coordinator's load invokes the mesh loader
once per slot that executes, rather than exactly once — twice when the
file exists and the top slot's `load_obj` returns without raising, once
when the top slot's bounds computation raises (the coordinator's
`except` catches it, the bottom slot never runs and keeps its previous
state, and the single failure reason is the exception message), and not
at all when the file does not exist.  Each executing slot parses the
file into its own separately owned mesh; on every non-raising path, two
slots holding equal meshes before hold equal (but not shared) mesh
contents after. -/
theorem c3_loader_called_per_slot (mv : MultiView) (fname : PyStr) (ex : Bool)
    (content : List PyStr)
    (hm : mv.top_viewer.objModel = mv.bottom_viewer.objModel) :
    (multiViewLoadObj mv fname ex content).loaderCalls =
      (if ex = false then 0
       else if (viewerLoadObj mv.top_viewer ex content).result = LoadReturn.exn then 1
       else 2) ∧
    ((viewerLoadObj mv.top_viewer ex content).result ≠ LoadReturn.exn →
      (multiViewLoadObj mv fname ex content).mv.top_viewer.objModel =
        (multiViewLoadObj mv fname ex content).mv.bottom_viewer.objModel) ∧
    ((viewerLoadObj mv.top_viewer ex content).result = LoadReturn.exn →
      (multiViewLoadObj mv fname ex content).mv.bottom_viewer = mv.bottom_viewer ∧
      (multiViewLoadObj mv fname ex content).ok = false ∧
      (multiViewLoadObj mv fname ex content).msg = MultiMsg.exception) :=
  ⟨multiLoad_calls_eq mv fname ex content,
   fun hnr => multiLoad_mesh_eq_of_no_exn mv fname ex content hm hnr,
   fun hr => multiLoad_exn_path mv fname ex content hr⟩

/-- Claim C3 counterexample: a normal load of an existing file makes two
loader invocations, not one; and a failing (parse-error) load after a
successful one does replace a slot's mesh with the partial parse,
refuting "on failure neither slot's mesh is replaced". -/
theorem c3_counterexample :
    (multiViewLoadObj initMultiView [] true c3good).loaderCalls = 2 ∧
    ¬(multiViewLoadObj initMultiView [] true c3good).loaderCalls = 1 ∧
    (multiViewLoadObj (multiViewLoadObj initMultiView [] true c3good).mv [] true c3bad).ok =
      false ∧
    (multiViewLoadObj (multiViewLoadObj initMultiView [] true c3good).mv []
        true c3bad).mv.top_viewer.objModel ≠
      (multiViewLoadObj initMultiView [] true c3good).mv.top_viewer.objModel := by decide

/-- Witness for `c3_loader_called_per_slot` at a concrete input. -/
theorem c3_witness :
    (initMultiView.top_viewer.objModel = initMultiView.bottom_viewer.objModel) ∧
    ((multiViewLoadObj initMultiView [] true c3good).loaderCalls =
        (if (true : Bool) = false then 0
         else if (viewerLoadObj initMultiView.top_viewer true c3good).result = LoadReturn.exn
           then 1 else 2) ∧
      ((viewerLoadObj initMultiView.top_viewer true c3good).result ≠ LoadReturn.exn →
        (multiViewLoadObj initMultiView [] true c3good).mv.top_viewer.objModel =
          (multiViewLoadObj initMultiView [] true c3good).mv.bottom_viewer.objModel) ∧
      ((viewerLoadObj initMultiView.top_viewer true c3good).result = LoadReturn.exn →
        (multiViewLoadObj initMultiView [] true c3good).mv.bottom_viewer =
          initMultiView.bottom_viewer ∧
        (multiViewLoadObj initMultiView [] true c3good).ok = false ∧
        (multiViewLoadObj initMultiView [] true c3good).msg = MultiMsg.exception)) :=
  ⟨by decide, c3_loader_called_per_slot initMultiView [] true c3good (by decide)⟩

/-- A single wheel event always leaves the zoom inside `[0.1, 10.0]`,
because the handler clamps after every change. -/
theorem wheel_zoom_mem (v : Viewer) (d : ℚ) :
    1 / 10 ≤ (applyEvent v (PEvent.wheel d)).zoom ∧ (applyEvent v (PEvent.wheel d)).zoom ≤ 10 := by
  constructor
  · exact le_max_left _ _
  · exact max_le (by norm_num) (min_le_right _ _)

/-- The zoom bound is preserved by any sequence of wheel events. -/
theorem foldl_wheel_mem (ds : List ℚ) : ∀ v : Viewer,
    1 / 10 ≤ v.zoom → v.zoom ≤ 10 →
    1 / 10 ≤ (ds.foldl (fun w d => applyEvent w (PEvent.wheel d)) v).zoom ∧
      (ds.foldl (fun w d => applyEvent w (PEvent.wheel d)) v).zoom ≤ 10 := by
  induction ds with
  | nil => intro v h1 h2; exact ⟨h1, h2⟩
  | cons d ds ih =>
    intro v _ _
    have h := wheel_zoom_mem v d
    exact ih (applyEvent v (PEvent.wheel d)) h.1 h.2

/-- Claim C7 (confirmed): a wheel event with positive delta multiplies
the zoom by `1.1` and a non-positive delta divides it by `1.1`, the
result being clamped to `[0.1, 10.0]` after every event; hence after any
sequence of wheel events starting from a zoom in `[0.1, 10.0]`, the zoom
stays in `[0.1, 10.0]`. -/
theorem c7_zoom_clamped (v : Viewer) (ds : List ℚ)
    (h1 : 1 / 10 ≤ v.zoom) (h2 : v.zoom ≤ 10) :
    (∀ (w : Viewer) (d : ℚ), 0 < d →
        (applyEvent w (PEvent.wheel d)).zoom = max (1 / 10) (min (w.zoom * (11 / 10)) 10)) ∧
    (∀ (w : Viewer) (d : ℚ), d ≤ 0 →
        (applyEvent w (PEvent.wheel d)).zoom = max (1 / 10) (min (w.zoom / (11 / 10)) 10)) ∧
    1 / 10 ≤ (ds.foldl (fun w d => applyEvent w (PEvent.wheel d)) v).zoom ∧
    (ds.foldl (fun w d => applyEvent w (PEvent.wheel d)) v).zoom ≤ 10 := by
  refine ⟨?_, ?_, foldl_wheel_mem ds v h1 h2⟩
  · intro w d hd
    have hpos : (0 : ℚ) < d / 120 := by positivity
    simp [applyEvent, hpos]
  · intro w d hd
    have hneg : ¬ (0 : ℚ) < d / 120 := by
      rw [not_lt]
      linarith
    simp [applyEvent, hneg]

/-- Witness for `c7_zoom_clamped` at a concrete input. -/
theorem c7_witness :
    (1 / 10 ≤ initViewer.zoom ∧ initViewer.zoom ≤ 10) ∧
    (1 / 10 ≤
        (([120, -120, 0] : List ℚ).foldl (fun w d => applyEvent w (PEvent.wheel d))
            initViewer).zoom ∧
      (([120, -120, 0] : List ℚ).foldl (fun w d => applyEvent w (PEvent.wheel d))
          initViewer).zoom ≤ 10) :=
  ⟨⟨by norm_num [initViewer], by norm_num [initViewer]⟩,
   (c7_zoom_clamped initViewer [120, -120, 0] (by norm_num [initViewer])
       (by norm_num [initViewer])).2.2⟩

/-- Dispatching one event to a slot leaves the other slot's whole widget
state unchanged. -/
theorem dispatch_preserves_other (s : Slot) (e : PEvent) (mv : MultiView) :
    slotViewer (dispatchEvent mv s e) s.other = slotViewer mv s.other := by
  cases s <;> rfl

/-- Any sequence of events dispatched to one slot leaves the other slot's
widget state unchanged. -/
theorem foldl_dispatch_other (s : Slot) : ∀ (events : List PEvent) (mv : MultiView),
    slotViewer (events.foldl (fun t e => dispatchEvent t s e) mv) s.other =
      slotViewer mv s.other := by
  intro events
  induction events with
  | nil => intro mv; rfl
  | cons e es ih =>
    intro mv
    rw [List.foldl_cons, ih (dispatchEvent mv s e)]
    exact dispatch_preserves_other s e mv

/-- Claim C8 counterexample: loading the one-token file `v` through the
coordinator raises `ValueError` in the top slot's bounds computation
(`np.max` of the empty span array of the zero-component vertex row), so
only one loader call happens: the top slot's mesh becomes `[[]]` while
the bottom slot keeps its previous (empty) mesh — two slots given the
same file end with different mesh contents, refuting the claim's
mesh-equality part. -/
theorem c8_counterexample :
    (multiViewLoadObj initMultiView [] true c8bad).mv.top_viewer.objModel ≠
      (multiViewLoadObj initMultiView [] true c8bad).mv.bottom_viewer.objModel ∧
    (multiViewLoadObj initMultiView [] true c8bad).msg = MultiMsg.exception ∧
    (multiViewLoadObj initMultiView [] true c8bad).loaderCalls = 1 := by decide

/-- Claim C8 (corrected): any sequence of drag and wheel events delivered
to one slot leaves the other slot's `rotation_x`, `rotation_y`,
`rotation_z` and `zoom` unchanged; and whenever the coordinator's load
does not hit the bounds-computation exception (in particular on every
successful load), two slots holding equal meshes before hold identical
mesh contents after.  When the bounds block raises, the top slot's mesh
is replaced while the bottom slot keeps its previous mesh, so the slots
can diverge — see the counterexample. -/
theorem c8_slot_independence (mv : MultiView) (s : Slot) (events : List PEvent)
    (fname : PyStr) (ex : Bool) (content : List PyStr)
    (hm : mv.top_viewer.objModel = mv.bottom_viewer.objModel)
    (hnr : (viewerLoadObj mv.top_viewer ex content).result ≠ LoadReturn.exn) :
    (slotViewer (events.foldl (fun t e => dispatchEvent t s e) mv) s.other).rotation_x =
        (slotViewer mv s.other).rotation_x ∧
    (slotViewer (events.foldl (fun t e => dispatchEvent t s e) mv) s.other).rotation_y =
        (slotViewer mv s.other).rotation_y ∧
    (slotViewer (events.foldl (fun t e => dispatchEvent t s e) mv) s.other).rotation_z =
        (slotViewer mv s.other).rotation_z ∧
    (slotViewer (events.foldl (fun t e => dispatchEvent t s e) mv) s.other).zoom =
        (slotViewer mv s.other).zoom ∧
    (multiViewLoadObj mv fname ex content).mv.top_viewer.objModel =
      (multiViewLoadObj mv fname ex content).mv.bottom_viewer.objModel := by
  rw [foldl_dispatch_other]
  exact ⟨rfl, rfl, rfl, rfl, multiLoad_mesh_eq_of_no_exn mv fname ex content hm hnr⟩

/-- Witness for `c8_slot_independence` at a concrete input. -/
theorem c8_witness :
    (initMultiView.top_viewer.objModel = initMultiView.bottom_viewer.objModel ∧
     (viewerLoadObj initMultiView.top_viewer true c3good).result ≠ LoadReturn.exn) ∧
    ((slotViewer (([PEvent.press 1 2, PEvent.move 9 9 true, PEvent.wheel 120].foldl
            (fun t e => dispatchEvent t Slot.top e) initMultiView)) Slot.top.other).rotation_x =
        (slotViewer initMultiView Slot.top.other).rotation_x ∧
      (slotViewer (([PEvent.press 1 2, PEvent.move 9 9 true, PEvent.wheel 120].foldl
            (fun t e => dispatchEvent t Slot.top e) initMultiView)) Slot.top.other).rotation_y =
        (slotViewer initMultiView Slot.top.other).rotation_y ∧
      (slotViewer (([PEvent.press 1 2, PEvent.move 9 9 true, PEvent.wheel 120].foldl
            (fun t e => dispatchEvent t Slot.top e) initMultiView)) Slot.top.other).rotation_z =
        (slotViewer initMultiView Slot.top.other).rotation_z ∧
      (slotViewer (([PEvent.press 1 2, PEvent.move 9 9 true, PEvent.wheel 120].foldl
            (fun t e => dispatchEvent t Slot.top e) initMultiView)) Slot.top.other).zoom =
        (slotViewer initMultiView Slot.top.other).zoom ∧
      (multiViewLoadObj initMultiView [] true c3good).mv.top_viewer.objModel =
        (multiViewLoadObj initMultiView [] true c3good).mv.bottom_viewer.objModel) :=
  ⟨⟨by decide, by decide⟩,
   c8_slot_independence initMultiView Slot.top
     [PEvent.press 1 2, PEvent.move 9 9 true, PEvent.wheel 120] [] true c3good (by decide)
     (by decide)⟩

/-- Claim C10 (confirmed): a face reference token splitting into exactly
two nonempty numeric components `a/b` does not fail: it resolves to
`(a - 1, b - 1)`, the second component being used as a normal index. -/
theorem c10_two_component_reference (s s1 s2 : PyStr) (a b : ℤ)
    (hsplit : splitOnSlash s = [s1, s2])
    (ha : parseInt s1 = some a) (hb : parseInt s2 = some b) :
    parseFaceRef s = some (a - 1, b - 1) := by
  unfold parseFaceRef
  rw [hsplit]
  simp [ha, hb]

/-- Witness for `c10_two_component_reference` at a concrete input. -/
theorem c10_witness :
    (splitOnSlash (String.toList "12/5") = [String.toList "12", String.toList "5"] ∧
     parseInt (String.toList "12") = some 12 ∧ parseInt (String.toList "5") = some 5) ∧
    parseFaceRef (String.toList "12/5") = some (11, 4) :=
  ⟨⟨by decide, by decide, by decide⟩,
   c10_two_component_reference (String.toList "12/5") (String.toList "12") (String.toList "5")
     12 5 (by decide) (by decide) (by decide)⟩

/-- A nonnegative in-bounds Python index reads like `List.get?`. -/
theorem pyGet_eq_get? {α : Type} (l : List α) (i : ℤ) (h0 : 0 ≤ i)
    (h1 : i < (l.length : ℤ)) : pyGet l i = l.get? i.toNat := by
  simp [pyGet, h0, h1]

/-- A nonnegative in-bounds Python index always yields a value. -/
theorem pyGet_isSome_of_lt {α : Type} (l : List α) (i : ℤ) (h0 : 0 ≤ i)
    (h1 : i < (l.length : ℤ)) : ∃ x, pyGet l i = some x := by
  rw [pyGet_eq_get? l i h0 h1]
  have hn : i.toNat < l.length := by omega
  exact ⟨l.get ⟨i.toNat, hn⟩, List.get?_eq_get hn⟩

/-- An in-range reference never raises in the fan loop and appends
exactly its resolved position to the stream. -/
theorem emitUnchecked_pos (m : OBJModel) (st : GLSt) (r : ℤ × ℤ) (h : refInRange m r) :
    ∃ st2, emitUnchecked m st r = some st2 ∧
      st2.stream.map RVertex.pos = st.stream.map RVertex.pos ++ [resolvePos m r] := by
  obtain ⟨h0, h1, h2⟩ := h
  obtain ⟨v, hv⟩ := pyGet_isSome_of_lt m.vertices r.1 h0 h1
  by_cases hn : 0 ≤ r.2
  · obtain ⟨nv, hnv⟩ := pyGet_isSome_of_lt m.normals r.2 hn (h2 hn)
    refine ⟨⟨some nv, st.stream ++ [⟨v, some nv⟩]⟩, ?_, ?_⟩
    · simp [emitUnchecked, hn, hnv, hv]
    · simp [resolvePos, hv]
  · refine ⟨⟨st.curNormal, st.stream ++ [⟨v, st.curNormal⟩]⟩, ?_, ?_⟩
    · simp [emitUnchecked, hn, hv]
    · simp [resolvePos, hv]

/-- An in-range reference in the bounded loop appends exactly its
resolved position to the stream. -/
theorem emitChecked_pos (m : OBJModel) (st : GLSt) (r : ℤ × ℤ) (h : refInRange m r) :
    (emitChecked m st r).stream.map RVertex.pos =
      st.stream.map RVertex.pos ++ [resolvePos m r] := by
  obtain ⟨h0, h1, _⟩ := h
  have hv : 0 ≤ r.1 ∧ r.1 < (m.vertices.length : ℤ) := ⟨h0, h1⟩
  by_cases hn : 0 ≤ r.2 ∧ r.2 < (m.normals.length : ℤ)
  · simp [emitChecked, hn, hv, resolvePos]
  · simp [emitChecked, hn, hv, resolvePos]

/-- Folding the bounded loop over in-range references appends their
resolved positions in order. -/
theorem foldl_emitChecked_pos (m : OBJModel) : ∀ (l : List (ℤ × ℤ)) (st : GLSt),
    (∀ r ∈ l, refInRange m r) →
    (l.foldl (emitChecked m) st).stream.map RVertex.pos =
      st.stream.map RVertex.pos ++ l.map (resolvePos m) := by
  intro l
  induction l with
  | nil => intro st _; simp
  | cons r rs ih =>
    intro st hall
    rw [List.foldl_cons,
      ih (emitChecked m st r) (fun x hx => hall x (List.mem_cons_of_mem r hx)),
      emitChecked_pos m st r (hall r (List.mem_cons_self r rs))]
    simp

/-- The fan loop over in-range references never raises and appends, for
each adjacent pair `(prev, c)`, the triangle `anchor, prev, c`. -/
theorem fanLoop_pos (m : OBJModel) (f0 : ℤ × ℤ) (hf0 : refInRange m f0) :
    ∀ (rest : List (ℤ × ℤ)) (prev : ℤ × ℤ) (st : GLSt),
      refInRange m prev → (∀ r ∈ rest, refInRange m r) →
      ∃ st2, fanLoop m f0 prev rest st = some st2 ∧
        st2.stream.map RVertex.pos = st.stream.map RVertex.pos ++
          (((prev :: rest).zip rest).map
            (fun pc => [resolvePos m f0, resolvePos m pc.1, resolvePos m pc.2])).flatten := by
  intro rest
  induction rest with
  | nil =>
    intro prev st _ _
    exact ⟨st, rfl, by simp⟩
  | cons c cs ih =>
    intro prev st hprev hall
    obtain ⟨s1, e1, p1⟩ := emitUnchecked_pos m st f0 hf0
    obtain ⟨s2, e2, p2⟩ := emitUnchecked_pos m s1 prev hprev
    obtain ⟨s3, e3, p3⟩ := emitUnchecked_pos m s2 c (hall c (List.mem_cons_self c cs))
    obtain ⟨st2, e4, p4⟩ := ih c s3 (hall c (List.mem_cons_self c cs))
      (fun x hx => hall x (List.mem_cons_of_mem c hx))
    refine ⟨st2, ?_, ?_⟩
    · simp [fanLoop, e1, e2, e3, e4]
    · rw [p4, p3, p2, p1]
      simp [List.append_assoc]

/-- Claim C9 (confirmed): for a face with more than 3 references, all in
range, the frame builder emits exactly `n - 2` triangles, the fan
`(first, i-1, i)` for `i` from `2` to the last reference: the emitted
vertex positions are precisely the concatenation of the `specFan`
triangles' resolved corners. -/
theorem c9_fan_triangulation (m : OBJModel) (face : List (ℤ × ℤ)) (st : GLSt)
    (hlen : 3 < face.length) (hall : ∀ r ∈ face, refInRange m r) :
    ∃ st2, renderFace m face st = some st2 ∧
      st2.stream.map RVertex.pos = st.stream.map RVertex.pos ++
        ((specFan face).map
          (fun t => [resolvePos m t.1, resolvePos m t.2.1, resolvePos m t.2.2])).flatten ∧
      (specFan face).length = face.length - 2 := by
  cases face with
  | nil => simp at hlen
  | cons f0 t0 =>
    cases t0 with
    | nil => simp at hlen
    | cons f1 t1 =>
      cases t1 with
      | nil => simp at hlen
      | cons f2 rest =>
        have hf0 : refInRange m f0 := hall f0 (by simp)
        have hf1 : refInRange m f1 := hall f1 (by simp)
        have hf2 : refInRange m f2 := hall f2 (by simp)
        have hrest : ∀ r ∈ rest, refInRange m r := fun x hx => hall x (by simp [hx])
        have hfold := foldl_emitChecked_pos m [f0, f1, f2] st
          (by
            intro x hx
            simp at hx
            rcases hx with rfl | rfl | rfl
            · exact hf0
            · exact hf1
            · exact hf2)
        obtain ⟨st2, he, hp⟩ :=
          fanLoop_pos m f0 hf0 rest f2 ([f0, f1, f2].foldl (emitChecked m) st) hf2 hrest
        refine ⟨st2, ?_, ?_, ?_⟩
        · simpa [renderFace] using he
        · rw [hp, hfold]
          simp [specFan, resolvePos, List.append_assoc, Function.comp_def]
        · simp [specFan, List.length_zip]

/-- Witness for `c9_fan_triangulation` at a concrete five-reference face. -/
theorem c9_witness :
    (3 < c9face.length ∧ ∀ r ∈ c9face, refInRange c9mesh r) ∧
    (∃ st2, renderFace c9mesh c9face ⟨none, []⟩ = some st2 ∧
      st2.stream.map RVertex.pos = (⟨none, []⟩ : GLSt).stream.map RVertex.pos ++
        ((specFan c9face).map
          (fun t =>
            [resolvePos c9mesh t.1, resolvePos c9mesh t.2.1, resolvePos c9mesh t.2.2])).flatten ∧
      (specFan c9face).length = c9face.length - 2) :=
  ⟨⟨by decide, by decide⟩,
   c9_fan_triangulation c9mesh c9face ⟨none, []⟩ (by decide) (by decide)⟩

/-- A face either short (at most 3 references, where every access is
bounds-checked) or with all references in range renders without raising. -/
theorem renderFace_isSome (m : OBJModel) (face : List (ℤ × ℤ)) (st : GLSt)
    (h : face.length ≤ 3 ∨ ∀ r ∈ face, refInRange m r) :
    (renderFace m face st).isSome := by
  cases face with
  | nil => simp [renderFace]
  | cons f0 t0 =>
    cases t0 with
    | nil => simp [renderFace]
    | cons f1 t1 =>
      cases t1 with
      | nil => simp [renderFace]
      | cons f2 rest =>
        cases rest with
        | nil => simp [renderFace, fanLoop]
        | cons c cs =>
          have hall : ∀ r ∈ (f0 :: f1 :: f2 :: c :: cs), refInRange m r := by
            rcases h with hlen | hr
            · simp at hlen
            · exact hr
          obtain ⟨st2, he, _⟩ := fanLoop_pos m f0 (hall f0 (by simp)) (c :: cs) f2
            (List.foldl (emitChecked m) st (List.take 3 (f0 :: f1 :: f2 :: c :: cs)))
            (hall f2 (by simp)) (fun x hx => hall x (by simp [hx]))
          have hren : renderFace m (f0 :: f1 :: f2 :: c :: cs) st = some st2 := he
          simp [hren]

/-- The face loop renders without raising when every face satisfies the
short-or-in-range condition. -/
theorem renderFaces_isSome (m : OBJModel) : ∀ (fs : List (List (ℤ × ℤ))) (st : GLSt),
    (∀ f ∈ fs, f.length ≤ 3 ∨ ∀ r ∈ f, refInRange m r) →
    (renderFaces m fs st).isSome := by
  intro fs
  induction fs with
  | nil => intro st _; simp [renderFaces]
  | cons f fs ih =>
    intro st hall
    obtain ⟨st1, hst1⟩ :=
      Option.isSome_iff_exists.mp (renderFace_isSome m f st (hall f (by simp)))
    have hstep : renderFaces m (f :: fs) st = renderFaces m fs st1 := by
      simp [renderFaces, hst1]
    rw [hstep]
    exact ih st1 (fun x hx => hall x (by simp [hx]))

/-- Claim C2 (corrected): frame building never raises for a mesh whose
faces each either have at most 3 references (all accesses are
bounds-checked, out-of-range references being silently skipped) or have
all references in range; but a face with more than 3 references and an
out-of-range reference makes the fan loop raise `IndexError`, aborting
the frame (see the counterexample). -/
theorem c2_render_no_throw (m : OBJModel)
    (h : ∀ f ∈ m.faces, f.length ≤ 3 ∨ ∀ r ∈ f, refInRange m r) :
    (renderFrame m).isSome := by
  unfold renderFrame
  by_cases hv : m.vertices = []
  · simp [hv]
  · obtain ⟨s, hs⟩ :=
      Option.isSome_iff_exists.mp (renderFaces_isSome m m.faces ⟨none, []⟩ h)
    simp [hv, hs]

/-- Claim C2 counterexample: a mesh with one vertex and one
four-reference face whose last vertex index is out of range makes frame
building raise (the fan loop indexes `vertices[5]` without a bounds
check), refuting "building a frame never throws for malformed face
data". -/
theorem c2_counterexample : renderFrame c2badMesh = none := by decide

/-- Witness for `c2_render_no_throw` at a concrete mesh combining a
short face with an out-of-range reference and a long in-range face. -/
theorem c2_witness :
    (∀ f ∈ c2mesh.faces, f.length ≤ 3 ∨ ∀ r ∈ f, refInRange c2mesh r) ∧
    (renderFrame c2mesh).isSome :=
  ⟨by decide, c2_render_no_throw c2mesh (by decide)⟩
